import Mathlib

/-!
# The blue/green sample server (`src/app/server.js`)

A shallow embedding of the twenty lines of `server.js`:

* the two module-level constants `port` and `version`, computed from
  `process.env` with the JavaScript operator `||`;
* the two route handlers registered with `app.get`;
* the call `app.listen(port, callback)` and its one `console.log`.

The program is glue over Express, so the embedding also fixes the part of
Express the program relies on: how `app.get` routes are matched against a
request (default settings: letter case ignored, one trailing slash allowed,
`HEAD` served by the `GET` route, automatic `OPTIONS` answer), what `res.json`
sends, and what is answered when no route matches. A response is described by
what the application hands to the framework (status code and body value); how
the framework then writes it to the socket (serialisation, headers, caching
validators) is outside the embedding.

The wall clock is an input: the handler of `/` receives the string that
`new Date().toISOString()` evaluates to when it runs.
-/

namespace Server

/-! ## JavaScript values -/

/-- The JavaScript values the program computes with: `undefined` (an
environment variable that is not set), strings, and integer numbers. -/
inductive JSVal where
  | undefined : JSVal
  | str (s : String) : JSVal
  | num (n : Int) : JSVal
  deriving DecidableEq, Repr

/-- JavaScript `ToBoolean`: `undefined`, the empty string and `0` are falsy,
every other value here is truthy (so the string `"0"` is truthy). -/
def truthy : JSVal → Bool
  | .undefined => false
  | .str s => s ≠ ""
  | .num n => n ≠ 0

/-- The operator `a || b`: `a` when `a` is truthy, else `b`. -/
def jsOr (a b : JSVal) : JSVal :=
  if truthy a then a else b

/-- JavaScript `ToString`, as applied by a template literal to `${x}`; a
number that is an integer of moderate size, as 3000 is, prints in decimal. -/
def toStr : JSVal → String
  | .undefined => "undefined"
  | .str s => s
  | .num n => toString n

/-! ## Configuration: lines 3 and 4 -/

/-- The two variables of `process.env` the program reads. A variable is either
not set or set to a string (possibly the empty one). -/
structure Env where
  PORT : Option String
  APP_VERSION : Option String
  deriving DecidableEq, Repr

/-- Reading `process.env.X`: `undefined` when not set, else the string. -/
def envGet : Option String → JSVal
  | none => .undefined
  | some s => .str s

/-- Line 3, `const port = process.env.PORT || 3000;`. -/
def port (env : Env) : JSVal :=
  jsOr (envGet env.PORT) (.num 3000)

/-- Line 4, `const version = process.env.APP_VERSION || 'blue';`. -/
def version (env : Env) : JSVal :=
  jsOr (envGet env.APP_VERSION) (.str "blue")

/-- The module-level constants, fixed once the module has been evaluated. -/
structure Config where
  port : JSVal
  version : JSVal
  deriving DecidableEq, Repr

/-- The configuration the program computes at startup. -/
def config (env : Env) : Config :=
  { port := port env, version := version env }

/-! ## Requests and responses -/

/-- An HTTP request as the router and the handlers see it: the method, the
path name of the URL (the part before `?`), the query string, the headers and
the body. -/
structure Request where
  method : String
  path : String
  query : String
  headers : List (String × String)
  body : String
  deriving DecidableEq, Repr

/-- An object literal: its keys with their values, in source order. -/
abbrev JSObject := List (String × JSVal)

/-- What is written as the body of a response. -/
inductive Body where
  /-- Sent by `res.json(obj)`: the JSON rendering of `obj`. -/
  | json (obj : JSObject) : Body
  /-- Plain text (the automatic `OPTIONS` answer). -/
  | text (s : String) : Body
  /-- The framework's default "Cannot METHOD path" page. -/
  | notFoundPage : Body
  deriving DecidableEq, Repr

/-- The two routes of the program, in registration order. -/
inductive RouteId where
  | root : RouteId
  | health : RouteId
  deriving DecidableEq, Repr

/-- The outcome of dispatching one request: the status code, the body, the
`Allow` header when one is set, and which registered handler ran, if any. -/
structure Response where
  status : Nat
  body : Body
  allow : Option String
  ran : Option RouteId
  deriving DecidableEq, Repr

/-! ## The handlers: lines 6 to 16 -/

/-- Lines 6-12, the object passed to `res.json` by the handler of `/`.
`iso` is the value of `new Date().toISOString()` when the handler runs. The
parameter `_req` is never read. -/
def rootHandler (cfg : Config) (iso : String) (_req : Request) : JSObject :=
  [("message", .str ("Hello from " ++ toStr cfg.version ++ " version!")),
   ("version", cfg.version),
   ("timestamp", .str iso)]

/-- Lines 14-16, the object passed to `res.json` by the handler of `/health`.
The parameter `_req` is never read. -/
def healthHandler (cfg : Config) (_req : Request) : JSObject :=
  [("status", .str "healthy"), ("version", cfg.version)]

/-- The handler registered for a route. -/
def runHandler (cfg : Config) (iso : String) (req : Request) : RouteId → JSObject
  | .root => rootHandler cfg iso req
  | .health => healthHandler cfg req

/-- The first argument of `app.get` for each route. -/
def routePath : RouteId → String
  | .root => "/"
  | .health => "/health"

/-- The routing table, in the order of the `app.get` calls. -/
def routes : List RouteId := [.root, .health]

/-! ## Express routing -/

/-- Letter case is ignored when a path is compared with a route (Express
default `case sensitive routing` off); only the ASCII letters fold. -/
def foldCase (s : String) : List Char :=
  s.data.map Char.toLower

/-- Whether the path name `path` matches the route path `route` under the
Express defaults (`strict routing` off): the route itself, and the route with
its final slash added or removed, letter case ignored. Express 4 compiles the
route `/` to the pattern `^\/?$` and `/health` to `^\/health\/?$`, both with
the flag `i`. -/
def matchPath (route path : String) : Bool :=
  let r := foldCase route
  let p := foldCase path
  if r.getLast? = some '/' then p == r || p == r.dropLast
  else p == r || p == r ++ ['/']

/-- Whether a route registered with `app.get` handles the method: the method
name is lowered, `head` is read as `get` because the route has no `HEAD`
handler of its own, and the result must be `get`. (Node only delivers method
names made of ASCII capitals.) -/
def handlesMethod (method : String) : Bool :=
  let name := foldCase method
  let name := if name == "head".data then "get".data else name
  name == "get".data

/-- Whether a route accepts the request: its path matches and it handles the
method. -/
def accepts (req : Request) (r : RouteId) : Bool :=
  matchPath (routePath r) req.path && handlesMethod req.method

/-- The methods a route registered with `app.get` reports for the automatic
`OPTIONS` answer. -/
def routeOptions (_r : RouteId) : List String :=
  ["GET", "HEAD"]

/-- Adds to `list` the methods of `addition` it does not hold yet. -/
def appendMethods (list addition : List String) : List String :=
  addition.foldl (fun acc m => if m ∈ acc then acc else acc ++ [m]) list

/-- The methods collected for an `OPTIONS` request: those of every route whose
path matches and that does not handle `OPTIONS` itself; empty for any other
method. -/
def collectOptions (req : Request) : List String :=
  if req.method = "OPTIONS" then
    (routes.filter fun r => matchPath (routePath r) req.path && !handlesMethod req.method).foldl
      (fun acc r => appendMethods acc (routeOptions r)) []
  else []

/-- What `res.json(obj)` sends for the handler of route `r`: the status code,
which no handler changes from its default 200, and the JSON body. -/
def resJson (r : RouteId) (obj : JSObject) : Response :=
  { status := 200, body := .json obj, allow := none, ran := some r }

/-- The answer when no route accepted the request: when methods were collected
for `OPTIONS`, status 200 with the list of them; else the default 404. -/
def fallthrough (req : Request) : Response :=
  match collectOptions req with
  | [] => { status := 404, body := .notFoundPage, allow := none, ran := none }
  | m :: ms =>
    let allowed := ",".intercalate (m :: ms)
    { status := 200, body := .text allowed, allow := some allowed, ran := none }

/-- Dispatch of one request by the application: the first route, in
registration order, that accepts the request runs its handler; when there is
none the request falls through. -/
def dispatch (cfg : Config) (iso : String) (req : Request) : Response :=
  match routes.find? (accepts req) with
  | some r => resJson r (runHandler cfg iso req r)
  | none => fallthrough req

/-! ## The process: startup and request handling -/

/-- The phases of the process. -/
inductive Phase where
  | starting : Phase
  | listening : Phase
  | terminated : Phase
  deriving DecidableEq, Repr

/-- What the process emits: a line written with `console.log`, or the response
to a request. -/
inductive Output where
  | log (line : String) : Output
  | response (r : Response) : Output
  deriving DecidableEq, Repr

/-- The state of the process: the module constants, the phase, the value
passed to `app.listen`, and everything emitted so far, oldest first. -/
structure State where
  cfg : Config
  phase : Phase
  listenArg : Option JSVal
  out : List Output
  deriving DecidableEq, Repr

/-- The lines written with `console.log` so far. -/
def logged (s : State) : List String :=
  s.out.filterMap fun
    | .log line => some line
    | .response _ => none

/-- The text logged by the callback of `app.listen`, line 19. -/
def logLine (cfg : Config) : String :=
  "App running on port " ++ toStr cfg.port ++ ", version: " ++ toStr cfg.version

/-- The state once lines 1-17 have run: constants computed, routes registered,
nothing emitted, not yet listening. -/
def init (env : Env) : State :=
  { cfg := config env, phase := .starting, listenArg := none, out := [] }

/-- Lines 18-20, `app.listen(port, callback)`. `bound` says whether the socket
could be bound: when it is, the server listens and then the callback logs its
line; when it is not, the error is not caught, the callback never runs and the
process terminates. -/
def listen (s : State) (bound : Bool) : State :=
  if bound then
    { s with phase := .listening, listenArg := some s.cfg.port,
             out := s.out ++ [.log (logLine s.cfg)] }
  else
    { s with phase := .terminated, listenArg := some s.cfg.port }

/-- The whole of startup. -/
def startup (env : Env) (bound : Bool) : State :=
  listen (init env) bound

/-- Handling one request in state `s` at clock reading `iso`: the response of
the dispatch is emitted; no handler assigns to anything else. -/
def handle (s : State) (iso : String) (req : Request) : State × Response :=
  let resp := dispatch s.cfg iso req
  ({ s with out := s.out ++ [.response resp] }, resp)

/-- Handling a sequence of requests, each with its clock reading; returns the
final state and the responses in order. -/
def run (s : State) : List (String × Request) → State × List Response
  | [] => (s, [])
  | (iso, req) :: rest =>
    let step := handle s iso req
    let tail := run step.1 rest
    (tail.1, step.2 :: tail.2)

/-- Property lookup `obj.key`. -/
def field (obj : JSObject) (key : String) : JSVal :=
  match obj.find? fun kv => kv.1 == key with
  | some kv => kv.2
  | none => .undefined

/-- A request with the given method and path and nothing else. -/
def mkReq (method path : String) : Request :=
  { method := method, path := path, query := "", headers := [], body := "" }

/-! ## Configuration lemmas -/

theorem jsOr_str (s : String) (b : JSVal) :
    jsOr (.str s) b = if s = "" then b else .str s := by
  by_cases h : s = "" <;> simp [jsOr, truthy, h]

theorem jsOr_undefined (b : JSVal) : jsOr .undefined b = b := by
  simp [jsOr, truthy]

theorem version_set (p : Option String) (s : String) :
    version { PORT := p, APP_VERSION := some s } = if s = "" then .str "blue" else .str s := by
  simp [version, envGet, jsOr_str]

theorem port_set (s : String) (v : Option String) :
    port { PORT := some s, APP_VERSION := v } = if s = "" then .num 3000 else .str s := by
  simp [port, envGet, jsOr_str]

theorem version_is_str (env : Env) : ∃ V, V ≠ "" ∧ version env = .str V := by
  rcases env with ⟨p, v⟩
  cases v with
  | none => exact ⟨"blue", by decide, by simp [version, envGet, jsOr_undefined]⟩
  | some s =>
    by_cases h : s = ""
    · exact ⟨"blue", by decide, by simp [version_set, h]⟩
    · exact ⟨s, h, by simp [version_set, h]⟩

/-! ## C1, C3, C5, C9: the configuration and what the handlers report -/

/-- C1: for every valid (that is, non-empty) value V of APP_VERSION in the
environment at startup, whatever PORT, the clock reading and the request, the
body the handler of GET / returns has its version field equal to V and its
message field equal to "Hello from " ++ V ++ " version!", and this body is what
the dispatch of GET / answers. -/
theorem C1_root_reports_version (V : String) (p : Option String) (iso : String)
    (req : Request) (hV : V ≠ "") :
    field (rootHandler (config { PORT := p, APP_VERSION := some V }) iso req) "version"
        = .str V
      ∧ field (rootHandler (config { PORT := p, APP_VERSION := some V }) iso req) "message"
        = .str ("Hello from " ++ V ++ " version!")
      ∧ (dispatch (config { PORT := p, APP_VERSION := some V }) iso
            { req with method := "GET", path := "/" }).body
        = .json (rootHandler (config { PORT := p, APP_VERSION := some V }) iso
            { req with method := "GET", path := "/" }) := by
  refine ⟨?_, ?_, ?_⟩
  · simp [field, rootHandler, config, version_set, hV]
  · simp [field, rootHandler, config, version_set, hV, toStr]
  · rfl

/-- C1 at APP_VERSION=green, PORT=8080: message "Hello from green version!"
and version "green". -/
theorem C1_root_reports_version_witness :
    "green" ≠ ""
      ∧ field (rootHandler (config { PORT := some "8080", APP_VERSION := some "green" })
          "2024-01-01T00:00:00.000Z" (mkReq "GET" "/")) "version" = .str "green"
      ∧ field (rootHandler (config { PORT := some "8080", APP_VERSION := some "green" })
          "2024-01-01T00:00:00.000Z" (mkReq "GET" "/")) "message"
          = .str "Hello from green version!" :=
  ⟨by decide,
   (C1_root_reports_version "green" (some "8080") "2024-01-01T00:00:00.000Z"
      (mkReq "GET" "/") (by decide)).1,
   (C1_root_reports_version "green" (some "8080") "2024-01-01T00:00:00.000Z"
      (mkReq "GET" "/") (by decide)).2.1⟩

/-- C3: with neither PORT nor APP_VERSION set, the configuration has port the
number 3000 and version the string "blue"; 3000 is what is passed to
app.listen, the server listens once the socket is bound, and both endpoints
report version "blue". -/
theorem C3_defaults (iso : String) (req : Request) (bound : Bool) :
    config { PORT := none, APP_VERSION := none }
        = { port := .num 3000, version := .str "blue" }
      ∧ (startup { PORT := none, APP_VERSION := none } bound).listenArg = some (.num 3000)
      ∧ (startup { PORT := none, APP_VERSION := none } true).phase = .listening
      ∧ (dispatch (config { PORT := none, APP_VERSION := none }) iso
            { req with method := "GET", path := "/" }).body
          = .json [("message", .str "Hello from blue version!"),
                   ("version", .str "blue"), ("timestamp", .str iso)]
      ∧ (dispatch (config { PORT := none, APP_VERSION := none }) iso
            { req with method := "GET", path := "/health" }).body
          = .json [("status", .str "healthy"), ("version", .str "blue")] := by
  refine ⟨rfl, ?_, rfl, rfl, rfl⟩
  cases bound <;> rfl

/-- C5, as stated, fails: with PORT=8080 the port computed at startup and
passed to app.listen is the string "8080", which is no number at all, while the
integer 8080 is a different value (one that prints as "8080"). -/
theorem C5_port_integer_counterexample :
    port { PORT := some "8080", APP_VERSION := none } = .str "8080"
      ∧ port { PORT := some "8080", APP_VERSION := none } ≠ .num 8080
      ∧ toStr (.num 8080) = "8080"
      ∧ (startup { PORT := some "8080", APP_VERSION := none } true).listenArg
          = some (.str "8080")
      ∧ (startup { PORT := some "8080", APP_VERSION := none } true).listenArg
          ≠ some (.num 8080) := by
  decide

/-- C5, amended: for every non-empty value s of PORT the port computed at
startup and passed to app.listen is the string s itself, unconverted, so it is
never a number; the number 3000 is the port exactly when PORT is unset or
empty. -/
theorem C5_port_kept_as_string (s : String) (v : Option String) (bound : Bool)
    (hs : s ≠ "") :
    port { PORT := some s, APP_VERSION := v } = .str s
      ∧ (startup { PORT := some s, APP_VERSION := v } bound).listenArg = some (.str s)
      ∧ (∀ n : Int, port { PORT := some s, APP_VERSION := v } ≠ .num n)
      ∧ port { PORT := none, APP_VERSION := v } = .num 3000
      ∧ port { PORT := some "", APP_VERSION := v } = .num 3000 := by
  have hp : port { PORT := some s, APP_VERSION := v } = .str s := by
    simp [port_set, hs]
  refine ⟨hp, ?_, ?_, ?_, ?_⟩
  · cases bound <;> simp [startup, listen, init, config, hp]
  · intro n; rw [hp]; simp
  · simp [port, envGet, jsOr_undefined]
  · simp [port_set]

/-- C5 amended, at PORT=8080. -/
theorem C5_port_kept_as_string_witness :
    "8080" ≠ ""
      ∧ port { PORT := some "8080", APP_VERSION := some "green" } = .str "8080" :=
  ⟨by decide, (C5_port_kept_as_string "8080" (some "green") true (by decide)).1⟩

/-- C9: the defaults apply on falsiness, not absence. APP_VERSION set to the
empty string gives version "blue" and PORT set to the empty string gives port
3000; every non-empty value is kept as given, PORT="0" included; and the
version either endpoint reports is never the empty string. -/
theorem C9_falsy_defaults (p v : Option String) (s : String) (env : Env)
    (iso : String) (req : Request) :
    version { PORT := p, APP_VERSION := some "" } = .str "blue"
      ∧ port { PORT := some "", APP_VERSION := v } = .num 3000
      ∧ version { PORT := p, APP_VERSION := some s } = (if s = "" then .str "blue" else .str s)
      ∧ port { PORT := some s, APP_VERSION := v } = (if s = "" then .num 3000 else .str s)
      ∧ port { PORT := some "0", APP_VERSION := v } = .str "0"
      ∧ field (rootHandler (config env) iso req) "version" ≠ .str ""
      ∧ field (healthHandler (config env) req) "version" ≠ .str "" := by
  obtain ⟨V, hV, hver⟩ := version_is_str env
  refine ⟨?_, ?_, version_set p s, port_set s v, ?_, ?_, ?_⟩
  · simp [version_set]
  · simp [port_set]
  · simp [port_set]
  · simp [field, rootHandler, config, hver, hV]
  · simp [field, healthHandler, config, hver, hV]

/-! ## Routing lemmas -/

theorem run_fst_cfg (s : State) (reqs : List (String × Request)) :
    (run s reqs).1.cfg = s.cfg ∧ (run s reqs).1.phase = s.phase
      ∧ (run s reqs).1.listenArg = s.listenArg := by
  induction reqs generalizing s with
  | nil => exact ⟨rfl, rfl, rfl⟩
  | cons x rest ih =>
    obtain ⟨iso, req⟩ := x
    have h := ih (handle s iso req).1
    simpa [run, handle] using h

theorem run_out (s : State) (reqs : List (String × Request)) :
    (run s reqs).1.out = s.out ++ (run s reqs).2.map Output.response := by
  induction reqs generalizing s with
  | nil => simp [run]
  | cons x rest ih =>
    obtain ⟨iso, req⟩ := x
    have h := ih (handle s iso req).1
    simp only [run]
    rw [h]
    simp [handle]

theorem run_length (s : State) (reqs : List (String × Request)) :
    (run s reqs).2.length = reqs.length := by
  induction reqs generalizing s with
  | nil => simp [run]
  | cons x rest ih =>
    obtain ⟨iso, req⟩ := x
    simp [run, ih]

theorem logged_append_responses (out : List Output) (rs : List Response) :
    (out ++ rs.map Output.response).filterMap
        (fun o => match o with
          | .log line => some line
          | .response _ => none)
      = out.filterMap
        (fun o => match o with
          | .log line => some line
          | .response _ => none) := by
  simp [List.filterMap_append]

theorem run_logged (s : State) (reqs : List (String × Request)) :
    logged (run s reqs).1 = logged s := by
  unfold logged
  rw [run_out]
  exact logged_append_responses s.out _

/-! ## C2, C8: nothing but responses after startup -/

/-- C2: for every configured version V and every finite sequence of requests
handled before (any number, any order, any kind), the configuration is still
the one computed at startup, the handler of GET /health returns exactly the
object with status "healthy" and version V, and the dispatch of GET /health
answers 200 with that object. -/
theorem C2_health_constant (s : State) (reqs : List (String × Request)) (iso : String)
    (req : Request) :
    (run s reqs).1.cfg = s.cfg
      ∧ healthHandler (run s reqs).1.cfg req
          = [("status", .str "healthy"), ("version", s.cfg.version)]
      ∧ (handle (run s reqs).1 iso { req with method := "GET", path := "/health" }).2
          = { status := 200
              body := .json [("status", .str "healthy"), ("version", s.cfg.version)]
              allow := none
              ran := some .health } := by
  have hcfg := (run_fst_cfg s reqs).1
  refine ⟨hcfg, ?_, ?_⟩
  · simp [healthHandler, hcfg]
  · simp only [handle, hcfg]
    rfl

/-- C8: startup emits exactly one thing, the line "App running on port <port>,
version: <version>", and only once the server listens (nothing before the
call of app.listen, nothing when the socket cannot be bound); handling any
sequence of requests then emits one response per request and nothing else: no
further line is logged, and port, version and phase are unchanged. -/
theorem C8_only_effects (env : Env) (reqs : List (String × Request)) :
    (init env).out = []
      ∧ (startup env false).out = []
      ∧ (startup env true).phase = .listening
      ∧ (startup env true).out
          = [.log ("App running on port " ++ toStr (port env) ++ ", version: "
              ++ toStr (version env))]
      ∧ (run (startup env true) reqs).1.out
          = (startup env true).out ++ (run (startup env true) reqs).2.map Output.response
      ∧ (run (startup env true) reqs).2.length = reqs.length
      ∧ logged (run (startup env true) reqs).1
          = ["App running on port " ++ toStr (port env) ++ ", version: "
              ++ toStr (version env)]
      ∧ (run (startup env true) reqs).1.cfg = { port := port env, version := version env }
      ∧ (run (startup env true) reqs).1.phase = .listening := by
  refine ⟨rfl, rfl, rfl, rfl, run_out _ _, run_length _ _, ?_, ?_, ?_⟩
  · rw [run_logged]
    rfl
  · rw [(run_fst_cfg _ _).1]
    rfl
  · rw [(run_fst_cfg _ _).2.1]
    rfl

/-! ## C4, C7, C10: dispatch -/

end Server
